import Mathlib

/-
Verification development for the Nano-Banana circuit designer client.

The definitions below are a shallow embedding of the client source:
  - src/types/index.ts        (data model)
  - src/services/api.ts       (generateCircuit, fetch and error conversion)
  - the snake_case payload variant of generateCircuit (wire mapping)
  - src/hooks/useChat.ts      (conversation store: sendMessage,
                               createNewSession, loadSession, clearCanvas,
                               attachImage)
  - src/components/ChatInterface.tsx (file input allow-list gate)
  - the selective-edit Canvas overlay (snapshotState, handleUndo,
    handleRedo, stroke drawing, syncCanvasSizes, applySelection)

Browser and network effects (fetch outcomes, FileReader results, object
URLs, canvas raster primitives, generated identifiers, clock readings) are
passed in as explicit inputs, so every operation is a total function on an
explicit state.
-/

namespace NanoBanana

/-- Message sender tag from src/types/index.ts. -/
inductive Sender
  | user
  | ai
deriving DecidableEq, Repr

/-- Request mode from src/types/index.ts. -/
inductive Mode
  | design
  | chat
deriving DecidableEq, Repr

/-- JavaScript truthiness of a value of type string-or-undefined: undefined
and the empty string are falsy. -/
def jsTruthy : Option String → Bool
  | none => false
  | some s => !s.isEmpty

/-- JavaScript String.prototype.trim: drop leading and trailing whitespace.
Written over the character list so that it evaluates inside the kernel. -/
def jsTrim (s : String) : String :=
  ⟨((s.data.dropWhile Char.isWhitespace).reverse.dropWhile Char.isWhitespace).reverse⟩

/-- JavaScript `a || b` on string-or-undefined values. -/
def jsOr (a b : Option String) : Option String :=
  if jsTruthy a then a else b

/-- JavaScript `a || b` where b is a plain string, as in
`response.text || "Generated circuit diagram"`. -/
def jsOrD (a : Option String) (b : String) : String :=
  if jsTruthy a then a.getD "" else b

/-- JavaScript `a || b` on numbers: 0 is falsy. -/
def jsOrNat (a b : Nat) : Nat :=
  if a == 0 then b else a

/-- Message from src/types/index.ts: imageUrl is the renderable reference,
imageDataUrl the original base64 data URL kept for resubmission. -/
structure Message where
  id : String
  text : String
  sender : Sender
  timestamp : Nat
  imageUrl : Option String := none
  imageDataUrl : Option String := none
deriving DecidableEq, Repr

/-- ChatSession from src/types/index.ts. -/
structure ChatSession where
  id : String
  title : String
  messages : List Message
  createdAt : Nat
  updatedAt : Nat
deriving DecidableEq, Repr

/-- CircuitGenerationResponse from src/types/index.ts. -/
structure CircuitGenerationResponse where
  text : Option String := none
  imageUrl : Option String := none
  success : Bool
  error : Option String := none
deriving DecidableEq, Repr

/-- The GenerateRequest of src/services/api.ts: CircuitGenerationRequest
(prompt, currentImage, mode) extended with the apiKey. -/
structure GenerateRequest where
  prompt : String
  currentImage : Option String := none
  mode : Mode
  apiKey : String
deriving DecidableEq, Repr

/-- Result of parsing a response body with response.json(): either a thrown
parse error (its message) or the decoded response object. -/
inductive BodyParse
  | failed (message : String)
  | parsed (data : CircuitGenerationResponse)
deriving DecidableEq, Repr

/-- Behaviour of the backend for one fetch call: either fetch itself rejects
(network error, with the thrown error message), or an HTTP response arrives
with its ok flag, status code and body. -/
inductive FetchOutcome
  | networkError (message : String)
  | httpResponse (ok : Bool) (status : Nat) (body : BodyParse)
deriving DecidableEq, Repr

/-- The try block of generateCircuit in src/services/api.ts lines 10-24,
with JavaScript exceptions modelled as Except: fetch may throw, a non-ok
status throws an HTTP error string, and response.json() may throw a parse
error; otherwise the decoded data is returned. -/
def fetchAndRead (outcome : FetchOutcome) : Except String CircuitGenerationResponse :=
  match outcome with
  | .networkError message => .error message
  | .httpResponse ok status body =>
    if !ok then
      .error ("HTTP error! status: " ++ toString status)
    else
      match body with
      | .failed message => .error message
      | .parsed data => .ok data

/-- generateCircuit from src/services/api.ts lines 9-32: the try block with a
catch-all that converts any thrown error into a response object with
success set to false and the error message attached. Thrown values are
Error objects, so the message branch of the catch is taken. -/
def generateCircuit (request : GenerateRequest) (outcome : FetchOutcome) :
    CircuitGenerationResponse :=
  match fetchAndRead outcome with
  | .ok data => data
  | .error message => { success := false, error := some message }

/-- The snake_case wire payload built by the generateCircuit variant in
src/unnamed/part_000 lines 12-17: prompt, current_image, mode, api_key.
There is no painted mask field. -/
structure GeneratePayload where
  prompt : String
  current_image : Option String
  mode : Mode
  api_key : String
deriving DecidableEq, Repr

/-- The camelCase to snake_case field mapping of src/unnamed/part_000
lines 12-17. -/
def buildPayload (request : GenerateRequest) : GeneratePayload :=
  { prompt := request.prompt,
    current_image := request.currentImage,
    mode := request.mode,
    api_key := request.apiKey }

/-- The JSON object keys of the payload literal in src/unnamed/part_000
lines 12-17, in source order. -/
def payloadKeys : List String :=
  ["prompt", "current_image", "mode", "api_key"]

/-- The inverse reading of the wire payload back into the request, showing
the mapping of buildPayload is lossless. -/
def readPayload (payload : GeneratePayload) : GenerateRequest :=
  { prompt := payload.prompt,
    currentImage := payload.current_image,
    mode := payload.mode,
    apiKey := payload.api_key }

/-- Modelled from the spec: the wire format of spec section 6, which lists an
optional painted_image mask field in the generation request. Declared only
to compare the spec wire format with the payload the code builds
(GeneratePayload above), which has no such field. -/
structure SpecGeneratePayload where
  prompt : String
  current_image : Option String
  painted_image : Option String
  mode : Mode
  api_key : String
deriving DecidableEq, Repr

/-- Modelled from the spec: building the payload of spec section 6 from the
request fields and the overlay mask the spec says is carried when present. -/
def specBuildPayload (request : GenerateRequest) (paintMask : Option String) :
    SpecGeneratePayload :=
  { prompt := request.prompt,
    current_image := request.currentImage,
    painted_image := paintMask,
    mode := request.mode,
    api_key := request.apiKey }

/-- The conversation store state owned by useChat (src/hooks/useChat.ts
lines 24-39): message mirror of the active session, session list, active
session id, pending-request flag, mode, the current image pair and the API
key. -/
structure ChatState where
  messages : List Message
  sessions : List ChatSession
  currentSessionId : Option String
  isLoading : Bool
  mode : Mode
  currentImage : Option String
  currentImageDataUrl : Option String
  apiKey : String
deriving DecidableEq, Repr

/-- The state at startup: the API key is loaded from durable storage (empty
string when absent), everything else starts empty, mode starts in design. -/
def initialState (storedApiKey : String) : ChatState :=
  { messages := [], sessions := [], currentSessionId := none,
    isLoading := false, mode := .design,
    currentImage := none, currentImageDataUrl := none,
    apiKey := storedApiKey }

/-- dataUrlToBlobUrl from src/hooks/useChat.ts lines 6-21: decodes a base64
data URL and asks the browser for an object URL. Browser effects appear as
inputs: decodeOk is whether the try block succeeds and blobUrl the URL that
URL.createObjectURL mints. The catch branch falls back to the original data
URL. -/
def dataUrlToBlobUrl (decodeOk : Bool) (blobUrl : String) (dataUrl : String) : String :=
  if decodeOk then blobUrl else dataUrl

/-- createNewSession from src/hooks/useChat.ts lines 53-70: prepends an empty
session, makes it active and clears the message mirror and the current
image pair. The generated id and the clock reading are inputs. -/
def createNewSession (newSessionId : String) (now : Nat) (s : ChatState) : ChatState :=
  let newSession : ChatSession :=
    { id := newSessionId, title := "New Circuit Design", messages := [],
      createdAt := now, updatedAt := now }
  { s with sessions := newSession :: s.sessions,
           currentSessionId := some newSessionId,
           messages := [],
           currentImage := none,
           currentImageDataUrl := none }

/-- loadSession from src/hooks/useChat.ts lines 72-86: if the id matches a
session, activate it, restore its log, and set the current image pair from
the last message of the log whose imageUrl is truthy (the code reverses the
log and takes the first such message); unknown ids change nothing. -/
def loadSession (sessionId : String) (s : ChatState) : ChatState :=
  match s.sessions.find? (fun ss => ss.id == sessionId) with
  | none => s
  | some session =>
    let lastImageMessage :=
      session.messages.reverse.find? (fun m => jsTruthy m.imageUrl)
    { s with currentSessionId := some sessionId,
             messages := session.messages,
             currentImage := jsOr (lastImageMessage.bind Message.imageUrl) none,
             currentImageDataUrl := jsOr (lastImageMessage.bind Message.imageDataUrl) none }

/-- clearCanvas from src/hooks/useChat.ts lines 172-176: clears the current
image pair and starts a new session. -/
def clearCanvas (newSessionId : String) (now : Nat) (s : ChatState) : ChatState :=
  createNewSession newSessionId now
    { s with currentImage := none, currentImageDataUrl := none }

/-- Identifiers and clock readings consumed by one sendMessage call, plus the
browser effects of decoding the returned image: the session id minted if a
session must be created, the two message ids, the two timestamps, and the
dataUrlToBlobUrl effect inputs. -/
structure SendEnv where
  newSessionId : String
  userMessageId : String
  aiMessageId : String
  sendTime : Nat
  replyTime : Nat
  decodeOk : Bool
  blobUrl : String
deriving DecidableEq, Repr

/-- The guard of sendMessage (src/hooks/useChat.ts lines 90-91): empty or
whitespace-only text, empty or whitespace-only API key, or an in-flight
request make the call return at once. -/
def sendBlocked (text : String) (s : ChatState) : Bool :=
  jsTrim text == "" || jsTrim s.apiKey == "" || s.isLoading

/-- The request object passed to generateCircuit (src/hooks/useChat.ts lines
109-115), built from the closure values of the call: the prompt text, the
current image data URL if truthy (currentImageDataUrl || undefined), the
mode and the API key. -/
def buildRequest (text : String) (s : ChatState) : GenerateRequest :=
  { prompt := text,
    currentImage := jsOr s.currentImageDataUrl none,
    mode := s.mode,
    apiKey := s.apiKey }

/-- The network effect of one sendMessage call: none when the guard rejects,
otherwise exactly the one request of buildRequest. -/
def sentRequest (text : String) (s : ChatState) : Option GenerateRequest :=
  if sendBlocked text s then none else some (buildRequest text s)

/-- The synchronous prefix of sendMessage (src/hooks/useChat.ts lines 89-106):
guard, implicit session creation, optimistic append of the user message and
raising the pending flag. This is the state while the request is in
flight. -/
def sendMessageStart (env : SendEnv) (text : String) (s : ChatState) : ChatState :=
  if sendBlocked text s then s
  else
    let s1 :=
      match s.currentSessionId with
      | some _ => s
      | none => createNewSession env.newSessionId env.sendTime s
    let userMessage : Message :=
      { id := env.userMessageId, text := text, sender := .user,
        timestamp := env.sendTime }
    { s1 with messages := s1.messages ++ [userMessage], isLoading := true }

/-- The response handling of sendMessage (src/hooks/useChat.ts lines 117-157
and the finally of line 167): decodes the returned image if any, appends
the AI message, overwrites the current image pair when an image arrived,
appends the user and AI messages to the addressed session (setting its
title from the first message), and clears the pending flag. The success
flag of the response is never inspected here, exactly as in the source. -/
def sendMessageFinish (env : SendEnv) (text : String) (sessionId : String)
    (userMessage : Message) (response : CircuitGenerationResponse)
    (s : ChatState) : ChatState :=
  let imageUrl : Option String :=
    if jsTruthy response.imageUrl then
      some (dataUrlToBlobUrl env.decodeOk env.blobUrl (response.imageUrl.getD ""))
    else none
  let aiMessage : Message :=
    { id := env.aiMessageId,
      text := jsOrD response.text "Generated circuit diagram",
      sender := .ai, timestamp := env.replyTime,
      imageUrl := imageUrl, imageDataUrl := response.imageUrl }
  let s1 := { s with messages := s.messages ++ [aiMessage] }
  let s2 :=
    if jsTruthy imageUrl then
      { s1 with currentImage := imageUrl, currentImageDataUrl := response.imageUrl }
    else s1
  let s3 :=
    { s2 with sessions := s2.sessions.map (fun (session : ChatSession) =>
        if session.id == sessionId then
          { session with
              messages := session.messages ++ [userMessage, aiMessage],
              title :=
                if session.messages.length == 0 then text.take 30 ++ "..." else session.title,
              updatedAt := env.replyTime }
        else session) }
  { s3 with isLoading := false }

/-- The fixed failure notice of the catch branch of sendMessage
(src/hooks/useChat.ts line 161). -/
def errorNoticeText : String :=
  "Sorry, there was an error generating the circuit. Please check your API key and try again."

/-- The catch branch of sendMessage (src/hooks/useChat.ts lines 158-166 plus
the finally): appends an AI message carrying the fixed failure notice and
clears the pending flag. It runs only if the awaited call throws;
generateCircuit converts every failure into a returned response instead of
throwing, so the completed call below composes only the try path. -/
def sendMessageCatch (env : SendEnv) (s : ChatState) : ChatState :=
  let errorMessage : Message :=
    { id := env.aiMessageId, text := errorNoticeText, sender := .ai,
      timestamp := env.replyTime }
  { s with messages := s.messages ++ [errorMessage], isLoading := false }

/-- One completed sendMessage call (src/hooks/useChat.ts lines 89-170) under
the backend behaviour given by outcome: the synchronous prefix, the
generateCircuit call on the closure values, then the response handling.
The request is built from the state at call time because the callback
closes over currentImageDataUrl, mode and apiKey. -/
def sendMessage (env : SendEnv) (text : String) (outcome : FetchOutcome)
    (s : ChatState) : ChatState :=
  if sendBlocked text s then s
  else
    let sessionId := s.currentSessionId.getD env.newSessionId
    let userMessage : Message :=
      { id := env.userMessageId, text := text, sender := .user,
        timestamp := env.sendTime }
    let response := generateCircuit (buildRequest text s) outcome
    sendMessageFinish env text sessionId userMessage response
      (sendMessageStart env text s)

/-- A file handed to the attach pipeline: its name, MIME type and raw
contents. -/
structure AttachedFile where
  name : String
  mime : String
  contents : String
deriving DecidableEq, Repr

/-- attachImage from src/hooks/useChat.ts lines 190-209: the FileReader reads
the file into a data URL (readOk is whether onload fires, dataUrl its
result), which becomes currentImageDataUrl, and a blob URL conversion of it
becomes currentImage. A reader error rejects the promise and changes
nothing. No message is appended and no request is issued. -/
def attachImage (file : AttachedFile) (readOk : Bool) (dataUrl : String)
    (decodeOk : Bool) (blobUrl : String) (s : ChatState) : ChatState :=
  if readOk then
    { s with currentImageDataUrl := some dataUrl,
             currentImage := some (dataUrlToBlobUrl decodeOk blobUrl dataUrl) }
  else s

/-- The MIME type allow-list of the file input in
src/components/ChatInterface.tsx lines 119-125. -/
def allowedImageTypes : List String :=
  ["image/png", "image/jpeg", "image/webp", "image/heic", "image/heif"]

/-- The onChange handler of the hidden file input in
src/components/ChatInterface.tsx lines 116-134: no file means return; a
file whose type is outside the allow-list only resets the input element and
returns; otherwise onAttachImage, wired to attachImage, is invoked. -/
def fileInputChange (file : Option AttachedFile) (readOk : Bool) (dataUrl : String)
    (decodeOk : Bool) (blobUrl : String) (s : ChatState) : ChatState :=
  match file with
  | none => s
  | some f =>
    if !(allowedImageTypes.contains f.mime) then s
    else attachImage f readOk dataUrl decodeOk blobUrl s

/-- A raster as its byte sequence: the pixel data of one canvas, the unit of
byte-for-byte comparison for undo and redo. -/
abbrev Raster := List Nat

/-- One undo or redo stack entry of the overlay editor: the ImageData of the
display (overlay) canvas and of the hidden natural-size canvas, as pushed by
snapshotState. -/
structure Snapshot where
  overlay : Raster
  hidden : Raster
deriving DecidableEq, Repr

/-- The drawing state of the selective-edit overlay: the two rasters and the
undo and redo stacks of raster-pair snapshots (the undoStack and redoStack
refs of the Canvas component). -/
structure OverlayEditState where
  overlay : Raster
  hidden : Raster
  undoStack : List Snapshot
  redoStack : List Snapshot
deriving DecidableEq, Repr

/-- snapshotState from the overlay editor (src/unnamed/part_004 lines
161-178): reads the current ImageData of both canvases, pushes the pair
onto the undo stack and clears the redo stack (a new action invalidates
forward history). -/
def snapshotState (s : OverlayEditState) : OverlayEditState :=
  { s with
      undoStack := { overlay := s.overlay, hidden := s.hidden } :: s.undoStack,
      redoStack := [] }

/-- One full stroke: startDraw (src/unnamed/part_004 lines 248-275) takes a
snapshot before mutating, then stamps a dot on both rasters; each drawMove
(lines 277-312) strokes one segment on both rasters. The canvas 2D raster
effects (arc fill, round-capped segment stroke, at the display scale and at
the hidden natural scale) are browser primitives, abstracted here as the
functions f on the display raster and g on the hidden raster: the composite
effect of the dot and all segments of the stroke. -/
def stroke (f g : Raster → Raster) (s : OverlayEditState) : OverlayEditState :=
  let s1 := snapshotState s
  { s1 with overlay := f s1.overlay, hidden := g s1.hidden }

/-- handleUndo from src/unnamed/part_004 lines 192-207: with an empty undo
stack nothing happens; otherwise the current raster pair is pushed onto the
redo stack and both rasters are restored from the popped snapshot. -/
def handleUndo (s : OverlayEditState) : OverlayEditState :=
  match s.undoStack with
  | [] => s
  | prev :: rest =>
    { overlay := prev.overlay, hidden := prev.hidden,
      undoStack := rest,
      redoStack := { overlay := s.overlay, hidden := s.hidden } :: s.redoStack }

/-- handleRedo from src/unnamed/part_004 lines 209-224: the mirror of
handleUndo. -/
def handleRedo (s : OverlayEditState) : OverlayEditState :=
  match s.redoStack with
  | [] => s
  | next :: rest =>
    { overlay := next.overlay, hidden := next.hidden,
      undoStack := { overlay := s.overlay, hidden := s.hidden } :: s.undoStack,
      redoStack := rest }

/-- clearOverlay from src/unnamed/part_004 lines 322-330: snapshot for undo,
then blank both rasters (clearRect leaves fully transparent pixel data,
written [] here). -/
def clearOverlay (s : OverlayEditState) : OverlayEditState :=
  let s1 := snapshotState s
  { s1 with overlay := [], hidden := [] }

/-- A sequence of strokes applied in order, each with its own pair of raster
effects. -/
def applyStrokes (l : List ((Raster → Raster) × (Raster → Raster)))
    (s : OverlayEditState) : OverlayEditState :=
  l.foldl (fun acc fg => stroke fg.1 fg.2 acc) s

/-- handleUndo applied n times. -/
def undoTimes : Nat → OverlayEditState → OverlayEditState
  | 0, s => s
  | n + 1, s => handleUndo (undoTimes n s)

/-- The hidden canvas dimensions set by syncCanvasSizes (src/unnamed/part_004
lines 147-151): naturalWidth falls back (JavaScript ||, 0 is falsy) to the
stored imgNatural value and then to the display size in device pixels,
already floored to a Nat with a floor of 1. The same for the height. -/
def syncCanvasSizes (naturalW naturalH imgNatW imgNatH fallbackW fallbackH : Nat) :
    Nat × Nat :=
  (jsOrNat naturalW (jsOrNat imgNatW (max 1 fallbackW)),
   jsOrNat naturalH (jsOrNat imgNatH (max 1 fallbackH)))

/-- The PNG the hidden canvas exports: toDataURL encodes the canvas at its
own pixel dimensions. -/
structure ExportedMask where
  width : Nat
  height : Nat
  encoded : String
deriving DecidableEq, Repr

/-- The modal state applySelection works on: the hidden canvas dimensions,
whether the edit surface is open, and the preview overlay shown on the main
canvas. -/
structure OverlayModal where
  hiddenWidth : Nat
  hiddenHeight : Nat
  isModalOpen : Bool
  overlayPreviewDataUrl : Option String
deriving DecidableEq, Repr

/-- applySelection from src/unnamed/part_004 lines 332-345: without an
onApplySelection callback it returns at once; otherwise toDataURL exports
the hidden canvas (a browser call that can throw: exportOk is its outcome
and encoded the produced data URL). On success the preview is stored, the
mask is handed upstream and the modal closes; on failure the error is
logged and nothing changes, so the surface stays open. -/
def applySelection (hasApplyCallback : Bool) (exportOk : Bool) (encoded : String)
    (s : OverlayModal) : OverlayModal × Option ExportedMask :=
  if !hasApplyCallback then (s, none)
  else if exportOk then
    ({ s with overlayPreviewDataUrl := some encoded, isModalOpen := false },
     some { width := s.hiddenWidth, height := s.hiddenHeight, encoded := encoded })
  else (s, none)

/-- The newest message of a log that carries an image, stated the way the
spec reads: of the messages whose imageUrl is truthy, the last one. -/
def newestImageMessage (log : List Message) : Option Message :=
  (log.filter (fun m => jsTruthy m.imageUrl)).getLast?

/-- The states of the conversation store reachable from startup by completed
sendMessage calls (under any backend outcome and any generated ids),
createNewSession, loadSession and clearCanvas. -/
inductive Reachable (storedApiKey : String) : ChatState → Prop
  | init : Reachable storedApiKey (initialState storedApiKey)
  | send (env : SendEnv) (text : String) (outcome : FetchOutcome) {s : ChatState} :
      Reachable storedApiKey s →
      Reachable storedApiKey (sendMessage env text outcome s)
  | newSession (newSessionId : String) (now : Nat) {s : ChatState} :
      Reachable storedApiKey s →
      Reachable storedApiKey (createNewSession newSessionId now s)
  | load (sessionId : String) {s : ChatState} :
      Reachable storedApiKey s →
      Reachable storedApiKey (loadSession sessionId s)
  | clear (newSessionId : String) (now : Nat) {s : ChatState} :
      Reachable storedApiKey s →
      Reachable storedApiKey (clearCanvas newSessionId now s)

/-- The mirror invariant of spec section 3: messages is exactly the log of
the session identified by the active session id, or empty when none is
active. -/
def storeInvariant (s : ChatState) : Prop :=
  match s.currentSessionId with
  | none => s.messages = []
  | some sid =>
    (s.sessions.find? (fun ss => ss.id == sid)).map ChatSession.messages
      = some s.messages

/-! ## Theorems -/

/-- C10: generateCircuit is total and never throws: every backend outcome
yields a returned response object. A network error, a non-ok HTTP status
and an unparseable body are each converted into a response with success
false carrying the error message; the parsed body of an ok response is
returned as is. The caller therefore cannot reach its exception path
through this function. -/
theorem generateCircuit_never_throws :
    (∀ (r : GenerateRequest) (message : String),
        generateCircuit r (.networkError message)
          = { success := false, error := some message })
    ∧ (∀ (r : GenerateRequest) (status : Nat) (body : BodyParse),
        generateCircuit r (.httpResponse false status body)
          = { success := false,
              error := some ("HTTP error! status: " ++ toString status) })
    ∧ (∀ (r : GenerateRequest) (status : Nat) (message : String),
        generateCircuit r (.httpResponse true status (.failed message))
          = { success := false, error := some message })
    ∧ (∀ (r : GenerateRequest) (status : Nat) (data : CircuitGenerationResponse),
        generateCircuit r (.httpResponse true status (.parsed data)) = data) :=
  ⟨fun _ _ => rfl, fun _ _ _ => rfl, fun _ _ _ => rfl, fun _ _ _ => rfl⟩

/-- C2: a completed sendMessage call started from an idle store always ends
with the pending flag down, whatever the backend outcome and whatever the
image decode outcome: the finally step clears it on every path. -/
theorem sendMessage_clears_pending (env : SendEnv) (text : String)
    (outcome : FetchOutcome) (s : ChatState) (h : s.isLoading = false) :
    (sendMessage env text outcome s).isLoading = false := by
  unfold sendMessage
  split
  · exact h
  · simp [sendMessageFinish]

/-- C2 witness: a concrete completed call from the startup state ends with
the pending flag down. -/
theorem sendMessage_clears_pending_witness :
    (initialState "key").isLoading = false
    ∧ (sendMessage
        { newSessionId := "s1", userMessageId := "m1", aiMessageId := "m2",
          sendTime := 0, replyTime := 1, decodeOk := true, blobUrl := "blob:a" }
        "hello" (.networkError "offline") (initialState "key")).isLoading = false :=
  ⟨rfl, sendMessage_clears_pending _ _ _ _ rfl⟩

/-- C4: a sendMessage call whose text trims to empty, whose API key trims to
empty, or which arrives while a request is pending, is a no-op: the state
is returned unchanged and no request is issued. Moreover any start that
does pass the guard raises the pending flag, so of several calls issued
while one request is in flight all but the first fall under the third
disjunct and have no effect. -/
theorem sendMessage_rejected_noop (env : SendEnv) (text : String)
    (outcome : FetchOutcome) (s : ChatState)
    (h : jsTrim text = "" ∨ jsTrim s.apiKey = "" ∨ s.isLoading = true) :
    sendMessage env text outcome s = s
    ∧ sentRequest text s = none
    ∧ ∀ (env2 : SendEnv) (text2 : String) (s2 : ChatState),
        sendBlocked text2 s2 = false → (sendMessageStart env2 text2 s2).isLoading = true := by
  have hb : sendBlocked text s = true := by
    unfold sendBlocked
    rcases h with h | h | h <;> simp [h]
  refine ⟨?_, ?_, ?_⟩
  · unfold sendMessage; simp [hb]
  · unfold sentRequest; simp [hb]
  · intro env2 text2 s2 h2
    unfold sendMessageStart
    simp [h2]

/-- C4 witness: a whitespace-only prompt from the startup state changes
nothing and issues nothing. -/
theorem sendMessage_rejected_noop_witness :
    jsTrim " " = ""
    ∧ sendMessage
        { newSessionId := "s1", userMessageId := "m1", aiMessageId := "m2",
          sendTime := 0, replyTime := 1, decodeOk := true, blobUrl := "b" }
        " " (.networkError "offline") (initialState "key") = initialState "key"
    ∧ sentRequest " " (initialState "key") = none :=
  ⟨by decide,
   (sendMessage_rejected_noop _ _ _ _ (Or.inl (by decide))).1,
   (sendMessage_rejected_noop
      { newSessionId := "s1", userMessageId := "m1", aiMessageId := "m2",
        sendTime := 0, replyTime := 1, decodeOk := true, blobUrl := "b" }
      " " (.networkError "offline") (initialState "key")
      (Or.inl (by decide))).2.1⟩

/-- C9: a file whose MIME type is outside the allow-list is rejected by the
file input handler with no state change at all: no image update, no message
appended; the handler body returns before invoking attachImage, and it has
no network effect on any path. -/
theorem attach_rejects_disallowed (file : AttachedFile) (readOk : Bool)
    (dataUrl : String) (decodeOk : Bool) (blobUrl : String) (s : ChatState)
    (h : allowedImageTypes.contains file.mime = false) :
    fileInputChange (some file) readOk dataUrl decodeOk blobUrl s = s := by
  unfold fileInputChange
  dsimp only
  rw [h]
  rfl

/-- C9 witness: a text/plain file is rejected and the startup state is
unchanged. -/
theorem attach_rejects_disallowed_witness :
    allowedImageTypes.contains "text/plain" = false
    ∧ fileInputChange (some { name := "notes.txt", mime := "text/plain", contents := "hi" })
        true "data:text/plain;base64,aGk=" true "blob:x" (initialState "key")
      = initialState "key" :=
  ⟨by decide,
   attach_rejects_disallowed
     { name := "notes.txt", mime := "text/plain", contents := "hi" }
     true "data:text/plain;base64,aGk=" true "blob:x" (initialState "key") (by decide)⟩

/-- Undoing as many times as strokes were applied restores both rasters and
returns the undo stack to its pre-drawing value. -/
lemma undoTimes_applyStrokes (l : List ((Raster → Raster) × (Raster → Raster)))
    (s : OverlayEditState) :
    (undoTimes l.length (applyStrokes l s)).overlay = s.overlay
    ∧ (undoTimes l.length (applyStrokes l s)).hidden = s.hidden
    ∧ (undoTimes l.length (applyStrokes l s)).undoStack = s.undoStack := by
  induction l generalizing s with
  | nil => exact ⟨rfl, rfl, rfl⟩
  | cons fg l ih =>
    obtain ⟨h1, h2, h3⟩ := ih (stroke fg.1 fg.2 s)
    have hstack : (undoTimes l.length (applyStrokes l (stroke fg.1 fg.2 s))).undoStack
        = { overlay := s.overlay, hidden := s.hidden } :: s.undoStack := by
      rw [h3]; rfl
    have key :
        (handleUndo (undoTimes l.length (applyStrokes l (stroke fg.1 fg.2 s)))).overlay
          = s.overlay
        ∧ (handleUndo (undoTimes l.length (applyStrokes l (stroke fg.1 fg.2 s)))).hidden
          = s.hidden
        ∧ (handleUndo (undoTimes l.length (applyStrokes l (stroke fg.1 fg.2 s)))).undoStack
          = s.undoStack := by
      unfold handleUndo
      rw [hstack]
      exact ⟨rfl, rfl, rfl⟩
    exact key

/-- After an undo with a nonempty undo stack, a redo restores the entire
state, rasters included, byte-for-byte. -/
lemma handleRedo_handleUndo (s : OverlayEditState) (h : s.undoStack ≠ []) :
    handleRedo (handleUndo s) = s := by
  cases s with
  | mk o hdn us rs =>
    cases us with
    | nil => exact absurd rfl h
    | cons p rest => rfl

/-- C7: with no intervening resize, N strokes followed by N undos restore
both the display raster and the source raster byte-for-byte to their
pre-drawing values; a redo right after an undo restores the whole pre-undo
state byte-for-byte; and every stroke (which snapshots before mutating)
clears the redo stack. -/
theorem overlay_undo_redo_correct :
    (∀ (l : List ((Raster → Raster) × (Raster → Raster))) (s : OverlayEditState),
        (undoTimes l.length (applyStrokes l s)).overlay = s.overlay
        ∧ (undoTimes l.length (applyStrokes l s)).hidden = s.hidden)
    ∧ (∀ s : OverlayEditState, s.undoStack ≠ [] → handleRedo (handleUndo s) = s)
    ∧ (∀ (f g : Raster → Raster) (s : OverlayEditState), (stroke f g s).redoStack = []) :=
  ⟨fun l s => ⟨(undoTimes_applyStrokes l s).1, (undoTimes_applyStrokes l s).2.1⟩,
   handleRedo_handleUndo,
   fun _ _ _ => rfl⟩

/-- C7 witness: two concrete strokes on a blank overlay, undone twice,
restore both rasters; a concrete undo followed by redo restores the
pre-undo state of a state with a nonempty undo stack. -/
theorem overlay_undo_redo_correct_witness :
    ((undoTimes 2 (applyStrokes
          [(fun r => 7 :: r, fun r => 9 :: r), (fun r => 3 :: r, fun r => 5 :: r)]
          { overlay := [], hidden := [], undoStack := [], redoStack := [] })).overlay = []
      ∧ (undoTimes 2 (applyStrokes
          [(fun r => 7 :: r, fun r => 9 :: r), (fun r => 3 :: r, fun r => 5 :: r)]
          { overlay := [], hidden := [], undoStack := [], redoStack := [] })).hidden = [])
    ∧ ({ overlay := [7], hidden := [9],
         undoStack := [{ overlay := [], hidden := [] }],
         redoStack := [] } : OverlayEditState).undoStack ≠ []
    ∧ handleRedo (handleUndo
        { overlay := [7], hidden := [9],
          undoStack := [{ overlay := [], hidden := [] }],
          redoStack := [] })
      = { overlay := [7], hidden := [9],
          undoStack := [{ overlay := [], hidden := [] }],
          redoStack := [] } :=
  ⟨overlay_undo_redo_correct.1
      [(fun r => 7 :: r, fun r => 9 :: r), (fun r => 3 :: r, fun r => 5 :: r)]
      { overlay := [], hidden := [], undoStack := [], redoStack := [] },
   by decide,
   overlay_undo_redo_correct.2.1
      { overlay := [7], hidden := [9],
        undoStack := [{ overlay := [], hidden := [] }],
        redoStack := [] }
      (by decide)⟩

/-- C8: when the natural image dimensions were available at sizing time, the
hidden canvas is sized to exactly those dimensions whatever the displayed
size and device pixel ratio, so a successful apply exports a mask of
exactly the natural pixel dimensions; and a failed export leaves the state
unchanged, the surface still open. -/
theorem applySelection_mask_dims (naturalW naturalH imgNatW imgNatH fallbackW fallbackH : Nat)
    (preview : Option String) (encoded : String)
    (hW : 0 < naturalW) (hH : 0 < naturalH) :
    (applySelection true true encoded
        { hiddenWidth := (syncCanvasSizes naturalW naturalH imgNatW imgNatH fallbackW fallbackH).1,
          hiddenHeight := (syncCanvasSizes naturalW naturalH imgNatW imgNatH fallbackW fallbackH).2,
          isModalOpen := true, overlayPreviewDataUrl := preview }).2
      = some { width := naturalW, height := naturalH, encoded := encoded }
    ∧ (∀ s : OverlayModal, applySelection true false encoded s = (s, none)
        ∧ (applySelection true false encoded s).1.isModalOpen = s.isModalOpen) := by
  have hW0 : (naturalW == 0) = false := by simpa using Nat.pos_iff_ne_zero.mp hW
  have hH0 : (naturalH == 0) = false := by simpa using Nat.pos_iff_ne_zero.mp hH
  constructor
  · simp [applySelection, syncCanvasSizes, jsOrNat, hW0, hH0]
  · intro s
    exact ⟨rfl, rfl⟩

/-- C8 witness: a 640 by 480 natural image displayed at 200 by 150 on a
device pixel ratio of 2 still exports a 640 by 480 mask, and a failed
export on the same state changes nothing. -/
theorem applySelection_mask_dims_witness :
    0 < 640 ∧ 0 < 480
    ∧ (applySelection true true "data:image/png;base64,MASK"
        { hiddenWidth := (syncCanvasSizes 640 480 0 0 400 300).1,
          hiddenHeight := (syncCanvasSizes 640 480 0 0 400 300).2,
          isModalOpen := true, overlayPreviewDataUrl := none }).2
      = some { width := 640, height := 480, encoded := "data:image/png;base64,MASK" } :=
  ⟨by decide, by decide,
   (applySelection_mask_dims 640 480 0 0 400 300 none "data:image/png;base64,MASK"
      (by decide) (by decide)).1⟩

/-- find? is the head of the filtered list. -/
lemma find?_eq_head?_filter (p : Message → Bool) (l : List Message) :
    l.find? p = (l.filter p).head? := by
  induction l with
  | nil => rfl
  | cons a l ih =>
    cases h : p a with
    | true => rw [List.find?_cons_of_pos _ h, List.filter_cons_of_pos h]; rfl
    | false => rw [List.find?_cons_of_neg _ (by simp [h]), List.filter_cons_of_neg (by simp [h]), ih]

/-- Scanning a reversed log for the first match is the same as taking the
last match of the log. -/
lemma reverse_find?_eq_newest (p : Message → Bool) (l : List Message) :
    l.reverse.find? p = (l.filter p).getLast? := by
  rw [find?_eq_head?_filter, List.filter_reverse, List.head?_reverse]

/-- C6: loadSession with a known id activates that session, restores exactly
its message log, and sets the current image pair from the newest message of
the log that carries an image (none of the other fields of the store are
touched and the session list is unchanged); loadSession with an unknown id
changes nothing. -/
theorem loadSession_restores (sessionId : String) (s : ChatState) :
    (s.sessions.find? (fun ss => ss.id == sessionId) = none →
        loadSession sessionId s = s)
    ∧ (∀ session, s.sessions.find? (fun ss => ss.id == sessionId) = some session →
        (loadSession sessionId s).currentSessionId = some sessionId
        ∧ (loadSession sessionId s).messages = session.messages
        ∧ (loadSession sessionId s).currentImage
            = (newestImageMessage session.messages).bind Message.imageUrl
        ∧ (loadSession sessionId s).currentImageDataUrl
            = jsOr ((newestImageMessage session.messages).bind Message.imageDataUrl) none
        ∧ (loadSession sessionId s).sessions = s.sessions
        ∧ (loadSession sessionId s).isLoading = s.isLoading) := by
  constructor
  · intro hf
    unfold loadSession
    rw [hf]
  · intro session hf
    have hload : loadSession sessionId s
        = { s with currentSessionId := some sessionId,
                   messages := session.messages,
                   currentImage :=
                     jsOr ((session.messages.reverse.find?
                        (fun m => jsTruthy m.imageUrl)).bind Message.imageUrl) none,
                   currentImageDataUrl :=
                     jsOr ((session.messages.reverse.find?
                        (fun m => jsTruthy m.imageUrl)).bind Message.imageDataUrl) none } := by
      unfold loadSession
      rw [hf]
    have hnewest : session.messages.reverse.find? (fun m => jsTruthy m.imageUrl)
        = newestImageMessage session.messages :=
      reverse_find?_eq_newest _ _
    refine ⟨by rw [hload], by rw [hload], ?_, ?_, by rw [hload], by rw [hload]⟩
    · rw [hload]
      show jsOr ((session.messages.reverse.find?
          (fun m => jsTruthy m.imageUrl)).bind Message.imageUrl) none = _
      cases hm : session.messages.reverse.find? (fun m => jsTruthy m.imageUrl) with
      | none =>
        rw [hnewest] at hm
        rw [hm]
        rfl
      | some m =>
        have hp : jsTruthy m.imageUrl = true := by
          have h2 := List.find?_some hm
          simpa using h2
        rw [hnewest] at hm
        rw [hm]
        show jsOr m.imageUrl none = m.imageUrl
        cases hiu : m.imageUrl with
        | none => rfl
        | some str =>
          rw [hiu] at hp
          simp [jsOr, hp]
    · rw [hload]
      show jsOr ((session.messages.reverse.find?
          (fun m => jsTruthy m.imageUrl)).bind Message.imageDataUrl) none = _
      rw [hnewest]

/-- An example session whose log puts an image on its second message, for
concrete evaluation. -/
def exampleSession : ChatSession :=
  { id := "sA", title := "t",
    messages :=
      [{ id := "m1", text := "draw it", sender := .user, timestamp := 0 },
       { id := "m2", text := "done", sender := .ai, timestamp := 1,
         imageUrl := some "blob:img", imageDataUrl := some "data:image/png;base64,IMG" }],
    createdAt := 0, updatedAt := 1 }

/-- A store holding only the example session, for concrete evaluation. -/
def exampleStore : ChatState :=
  { initialState "key" with sessions := [exampleSession] }

/-- C6 witness: loading the example session restores its log and picks its
image; loading an unknown id changes nothing. -/
theorem loadSession_restores_witness :
    exampleStore.sessions.find? (fun ss => ss.id == "sA") = some exampleSession
    ∧ (loadSession "sA" exampleStore).messages = exampleSession.messages
    ∧ (loadSession "sA" exampleStore).currentImage = some "blob:img"
    ∧ exampleStore.sessions.find? (fun ss => ss.id == "sB") = none
    ∧ loadSession "sB" exampleStore = exampleStore := by
  refine ⟨by decide, ?_, ?_, by decide, ?_⟩
  · exact ((loadSession_restores "sA" exampleStore).2 exampleSession (by decide)).2.1
  · exact Eq.trans
      ((loadSession_restores "sA" exampleStore).2 exampleSession (by decide)).2.2.1
      (by decide)
  · exact (loadSession_restores "sB" exampleStore).1 (by decide)

/-- C5 counterexample: the spec wire format carries a painted_image mask
field when a mask is present, but the payload object the code builds has
exactly the keys prompt, current_image, mode and api_key — for the concrete
request below with an exported overlay mask present, the spec payload
carries the mask while no painted_image field exists among the keys of the
payload the code sends. -/
theorem payload_carries_no_paint_mask :
    (specBuildPayload
        { prompt := "add a resistor", currentImage := some "data:image/png;base64,AAA",
          mode := .design, apiKey := "key-1" }
        (some "data:image/png;base64,MASK")).painted_image
      = some "data:image/png;base64,MASK"
    ∧ "painted_image" ∉ payloadKeys
    ∧ payloadKeys = ["prompt", "current_image", "mode", "api_key"] :=
  ⟨rfl, by decide, rfl⟩

/-- C5 amended: a sendMessage call that passes its guard issues exactly one
generation request carrying the prompt text, the current image data URL
when one is present, the mode and the API key; the camelCase to snake_case
translation of those four fields onto the wire is a pure total mapping with
no loss (readPayload inverts it); and no paint-mask field is ever part of
the payload, even when the overlay has exported one. -/
theorem sendMessage_request_fields (text : String) (s : ChatState)
    (h : sendBlocked text s = false) :
    sentRequest text s = some (buildRequest text s)
    ∧ (buildPayload (buildRequest text s)).prompt = text
    ∧ (buildPayload (buildRequest text s)).current_image = jsOr s.currentImageDataUrl none
    ∧ (buildPayload (buildRequest text s)).mode = s.mode
    ∧ (buildPayload (buildRequest text s)).api_key = s.apiKey
    ∧ (∀ r : GenerateRequest, readPayload (buildPayload r) = r)
    ∧ "painted_image" ∉ payloadKeys := by
  refine ⟨?_, rfl, rfl, rfl, rfl, fun r => rfl, by decide⟩
  unfold sentRequest
  simp [h]

/-- C5 witness: a concrete guard-passing call from a store holding a current
image issues exactly the one request with the four translated fields. -/
theorem sendMessage_request_fields_witness :
    sendBlocked "add a resistor"
      { initialState "key-1" with currentImageDataUrl := some "data:image/png;base64,AAA" }
      = false
    ∧ sentRequest "add a resistor"
        { initialState "key-1" with currentImageDataUrl := some "data:image/png;base64,AAA" }
      = some (buildRequest "add a resistor"
        { initialState "key-1" with currentImageDataUrl := some "data:image/png;base64,AAA" }) :=
  ⟨by decide,
   (sendMessage_request_fields "add a resistor"
      { initialState "key-1" with currentImageDataUrl := some "data:image/png;base64,AAA" }
      (by decide)).1⟩

/-- C1: the code bug at the failure path. For the concrete failing input of a
generation call answered 200 with body success false and error string
"quota exceeded", the completed sendMessage keeps the user message, appends
exactly one AI message and lowers the pending flag — but the text of that
AI message is the success-path default "Generated circuit diagram", not the
fixed failure notice of the catch branch, because the response success flag
is never inspected and generateCircuit never throws. -/
theorem failure_appends_success_fallback :
    (sendMessage
        { newSessionId := "s1", userMessageId := "m1", aiMessageId := "m2",
          sendTime := 0, replyTime := 1, decodeOk := true, blobUrl := "blob:a" }
        "Design a 555 timer blink circuit"
        (.httpResponse true 200 (.parsed
          { text := none, imageUrl := none, success := false, error := some "quota exceeded" }))
        (initialState "key-123")).messages.map Message.text
      = ["Design a 555 timer blink circuit", "Generated circuit diagram"]
    ∧ (sendMessage
        { newSessionId := "s1", userMessageId := "m1", aiMessageId := "m2",
          sendTime := 0, replyTime := 1, decodeOk := true, blobUrl := "blob:a" }
        "Design a 555 timer blink circuit"
        (.httpResponse true 200 (.parsed
          { text := none, imageUrl := none, success := false, error := some "quota exceeded" }))
        (initialState "key-123")).messages.map Message.sender
      = [.user, .ai]
    ∧ (sendMessage
        { newSessionId := "s1", userMessageId := "m1", aiMessageId := "m2",
          sendTime := 0, replyTime := 1, decodeOk := true, blobUrl := "blob:a" }
        "Design a 555 timer blink circuit"
        (.httpResponse true 200 (.parsed
          { text := none, imageUrl := none, success := false, error := some "quota exceeded" }))
        (initialState "key-123")).isLoading = false
    ∧ errorNoticeText ∉ (sendMessage
        { newSessionId := "s1", userMessageId := "m1", aiMessageId := "m2",
          sendTime := 0, replyTime := 1, decodeOk := true, blobUrl := "blob:a" }
        "Design a 555 timer blink circuit"
        (.httpResponse true 200 (.parsed
          { text := none, imageUrl := none, success := false, error := some "quota exceeded" }))
        (initialState "key-123")).messages.map Message.text := by
  refine ⟨?_, ?_, ?_, ?_⟩ <;> decide

/-- Introduction form of the mirror invariant when no session is active. -/
lemma storeInvariant_none (s : ChatState) (h : s.currentSessionId = none)
    (hh : s.messages = []) : storeInvariant s := by
  unfold storeInvariant
  rw [h]
  exact hh

/-- Introduction form of the mirror invariant when a session is active. -/
lemma storeInvariant_some (s : ChatState) (sid : String)
    (h : s.currentSessionId = some sid)
    (hh : (s.sessions.find? (fun ss => ss.id == sid)).map ChatSession.messages
      = some s.messages) : storeInvariant s := by
  unfold storeInvariant
  rw [h]
  exact hh

/-- Elimination form of the mirror invariant when a session is active. -/
lemma storeInvariant_elim_some (s : ChatState) (sid : String)
    (h : s.currentSessionId = some sid) (hinv : storeInvariant s) :
    (s.sessions.find? (fun ss => ss.id == sid)).map ChatSession.messages
      = some s.messages := by
  unfold storeInvariant at hinv
  rw [h] at hinv
  exact hinv

/-- The startup state satisfies the mirror invariant. -/
lemma storeInvariant_initial (storedApiKey : String) :
    storeInvariant (initialState storedApiKey) :=
  storeInvariant_none _ rfl rfl

/-- createNewSession establishes the mirror invariant unconditionally: the
fresh empty session is prepended and active, and the mirror is cleared. -/
lemma storeInvariant_createNewSession (newSessionId : String) (now : Nat)
    (s : ChatState) : storeInvariant (createNewSession newSessionId now s) := by
  apply storeInvariant_some _ newSessionId rfl
  show ((({ id := newSessionId, title := "New Circuit Design", messages := [],
            createdAt := now, updatedAt := now } : ChatSession)
        :: s.sessions).find? (fun ss => ss.id == newSessionId)).map ChatSession.messages
    = some []
  rw [List.find?_cons_of_pos _ (by simp)]
  rfl

/-- loadSession preserves the mirror invariant. -/
lemma storeInvariant_loadSession (sessionId : String) (s : ChatState)
    (h : storeInvariant s) : storeInvariant (loadSession sessionId s) := by
  unfold loadSession
  cases hf : s.sessions.find? (fun ss => ss.id == sessionId) with
  | none => exact h
  | some session =>
    apply storeInvariant_some _ sessionId rfl
    show (s.sessions.find? (fun ss => ss.id == sessionId)).map ChatSession.messages
      = some session.messages
    rw [hf]
    rfl

/-- The response handling of sendMessage keeps the active session id, appends
one AI message to the mirror, and rewrites the session list pointwise with
an update that only touches sessions whose id is the addressed one. -/
lemma sendMessageFinish_fields (env : SendEnv) (text : String) (sessionId : String)
    (u : Message) (resp : CircuitGenerationResponse) (p : ChatState) :
    ∃ a : Message,
      (sendMessageFinish env text sessionId u resp p).currentSessionId = p.currentSessionId
      ∧ (sendMessageFinish env text sessionId u resp p).messages = p.messages ++ [a]
      ∧ (sendMessageFinish env text sessionId u resp p).sessions
          = p.sessions.map (fun (session : ChatSession) =>
              if session.id == sessionId then
                { session with
                    messages := session.messages ++ [u, a],
                    title := if session.messages.length == 0
                             then text.take 30 ++ "..." else session.title,
                    updatedAt := env.replyTime }
              else session) := by
  refine ⟨{ id := env.aiMessageId,
            text := jsOrD resp.text "Generated circuit diagram",
            sender := .ai, timestamp := env.replyTime,
            imageUrl := if jsTruthy resp.imageUrl then
                some (dataUrlToBlobUrl env.decodeOk env.blobUrl (resp.imageUrl.getD ""))
              else none,
            imageDataUrl := resp.imageUrl }, ?_, ?_, ?_⟩
  · simp only [sendMessageFinish]
    split <;> first | rfl | (split <;> rfl)
  · simp only [sendMessageFinish]
    split <;> first | rfl | (split <;> rfl)
  · simp only [sendMessageFinish]
    split <;> first | rfl | (split <;> rfl)

/-- find? commutes with a pointwise rewrite of the session list that
preserves ids. -/
lemma find?_map_of_id_preserved (sessionId : String) (g : ChatSession → ChatSession)
    (hg : ∀ ss, (g ss).id = ss.id) (l : List ChatSession) :
    (l.map g).find? (fun ss => ss.id == sessionId)
      = (l.find? (fun ss => ss.id == sessionId)).map g := by
  induction l with
  | nil => rfl
  | cons a l ih =>
    rw [List.map_cons, List.find?_cons, List.find?_cons]
    simp only [hg]
    cases h : (a.id == sessionId) with
    | true => rfl
    | false => exact ih

/-- The response handling preserves the mirror invariant provided the store
mirror holds the addressed session log plus the already-appended user
message. -/
lemma storeInvariant_sendMessageFinish (env : SendEnv) (text : String)
    (sessionId : String) (u : Message) (resp : CircuitGenerationResponse)
    (p : ChatState) (hid : p.currentSessionId = some sessionId)
    (sess : ChatSession)
    (hfind : p.sessions.find? (fun ss => ss.id == sessionId) = some sess)
    (hmsg : sess.messages ++ [u] = p.messages) :
    storeInvariant (sendMessageFinish env text sessionId u resp p) := by
  obtain ⟨a, hcs, hms, hss⟩ := sendMessageFinish_fields env text sessionId u resp p
  apply storeInvariant_some _ sessionId (by rw [hcs, hid])
  rw [hss, hms]
  rw [find?_map_of_id_preserved sessionId _
    (fun ss => by cases hc : (ss.id == sessionId) <;> simp [hc]) p.sessions]
  rw [hfind]
  have hsessId : (sess.id == sessionId) = true := by
    have h2 := List.find?_some hfind
    simpa using h2
  have hsid : sess.id = sessionId := by simpa using hsessId
  simp [hsessId, hsid, ← hmsg]

/-- The synchronous prefix of a guard-passing call on a store with an active
session: the user message is appended to the mirror and the flag raised. -/
lemma sendMessageStart_some (env : SendEnv) (text : String) (s : ChatState)
    (sid : String) (hb : sendBlocked text s = false)
    (hcs : s.currentSessionId = some sid) :
    sendMessageStart env text s
      = { s with
          messages := s.messages ++
            [{ id := env.userMessageId, text := text, sender := .user,
               timestamp := env.sendTime }],
          isLoading := true } := by
  unfold sendMessageStart
  rw [if_neg (by simp [hb])]
  conv_lhs => rw [hcs]

/-- The synchronous prefix of a guard-passing call on a store with no active
session: a session is created first, then the user message appended. -/
lemma sendMessageStart_none (env : SendEnv) (text : String) (s : ChatState)
    (hb : sendBlocked text s = false) (hcs : s.currentSessionId = none) :
    sendMessageStart env text s
      = { createNewSession env.newSessionId env.sendTime s with
          messages :=
            [{ id := env.userMessageId, text := text, sender := .user,
               timestamp := env.sendTime }],
          isLoading := true } := by
  unfold sendMessageStart
  rw [if_neg (by simp [hb]), hcs]
  rfl

/-- A completed sendMessage call preserves the mirror invariant, whatever the
backend outcome. -/
lemma storeInvariant_sendMessage (env : SendEnv) (text : String)
    (outcome : FetchOutcome) (s : ChatState) (h : storeInvariant s) :
    storeInvariant (sendMessage env text outcome s) := by
  unfold sendMessage
  by_cases hb0 : sendBlocked text s = true
  · rw [if_pos hb0]
    exact h
  · have hb : sendBlocked text s = false := by simpa using hb0
    rw [if_neg hb0]
    show storeInvariant (sendMessageFinish env text
      (s.currentSessionId.getD env.newSessionId)
      { id := env.userMessageId, text := text, sender := .user, timestamp := env.sendTime }
      (generateCircuit (buildRequest text s) outcome)
      (sendMessageStart env text s))
    cases hcs : s.currentSessionId with
    | some sid =>
      obtain ⟨sess, hfind, hmess⟩ :=
        Option.map_eq_some'.mp (storeInvariant_elim_some s sid hcs h)
      rw [sendMessageStart_some env text s sid hb hcs]
      simp only [hcs, Option.getD_some]
      exact storeInvariant_sendMessageFinish env text sid _ _ _ rfl sess
        hfind (by rw [hmess])
    | none =>
      rw [sendMessageStart_none env text s hb hcs]
      simp only [hcs, Option.getD_none]
      refine storeInvariant_sendMessageFinish env text env.newSessionId _ _ _ rfl
        { id := env.newSessionId, title := "New Circuit Design", messages := [],
          createdAt := env.sendTime, updatedAt := env.sendTime }
        ?_ rfl
      show ((({ id := env.newSessionId, title := "New Circuit Design", messages := [],
                createdAt := env.sendTime, updatedAt := env.sendTime } : ChatSession)
            :: s.sessions).find? (fun ss => ss.id == env.newSessionId)) = some _
      rw [List.find?_cons_of_pos _ (by simp)]

/-- C3: in every store state reachable by completed sendMessage calls (under
any backend outcome), createNewSession, loadSession and clearCanvas, the
mirror invariant holds: messages is exactly the log of the session
identified by the active session id, or empty when none is active. -/
theorem messages_mirror_active_session (storedApiKey : String) (s : ChatState)
    (h : Reachable storedApiKey s) : storeInvariant s := by
  induction h with
  | init => exact storeInvariant_initial storedApiKey
  | send env text outcome hr ih => exact storeInvariant_sendMessage env text outcome _ ih
  | newSession newSessionId now hr ih =>
    exact storeInvariant_createNewSession newSessionId now _
  | load sessionId hr ih => exact storeInvariant_loadSession sessionId _ ih
  | clear newSessionId now hr ih =>
    exact storeInvariant_createNewSession newSessionId now _

/-- C3 witness: the state after one concrete completed send from startup is
reachable and satisfies the mirror invariant. -/
theorem messages_mirror_active_session_witness :
    Reachable "key"
      (sendMessage
        { newSessionId := "s1", userMessageId := "m1", aiMessageId := "m2",
          sendTime := 0, replyTime := 1, decodeOk := true, blobUrl := "blob:a" }
        "hello" (.networkError "offline") (initialState "key"))
    ∧ storeInvariant
      (sendMessage
        { newSessionId := "s1", userMessageId := "m1", aiMessageId := "m2",
          sendTime := 0, replyTime := 1, decodeOk := true, blobUrl := "blob:a" }
        "hello" (.networkError "offline") (initialState "key")) :=
  ⟨Reachable.send _ _ _ Reachable.init,
   messages_mirror_active_session "key" _ (Reachable.send _ _ _ Reachable.init)⟩

end NanoBanana
